import Mathlib

/-!
# Verification of the financial viability engine of the Projetos repository

This file gives a shallow embedding, over exact arithmetic, of the financial
computations of the repository (the functions of `src/abas/financeiro.py` and
`src/modules/financeiro_projeto.py` / `src/modules/dashboard.py`), and proves
the specified properties about them.

Modelling conventions:
* Python `float` values are modelled as exact rationals (`ℚ`) wherever the code
  only uses field operations and integer powers; the annual→monthly rate
  conversion `(1+a) ** (1/12) - 1` takes a real 12th root, so the code paths
  that use it are modelled over `ℝ` with `Real.rpow`.
* Python float literals such as `1e-12`, `1e-9`, `-0.9999` are modelled by the
  exact rationals they denote.
* `datetime.date` values are modelled either as (year, month, day) triples
  (`SimpleDate`, for `financeiro.py`, which only ever reads the fields) or as
  integer day numbers (for `financeiro_projeto.py`, which subtracts dates to
  get `.days`).
* pandas DataFrames are modelled as lists of rows; `groupby(...).sum()`
  followed by an ascending sort on the key is modelled by `groupSumSorted`.
-/

set_option maxRecDepth 8000

namespace Projetos

/-- A calendar date (year, month, day), as carried by `datetime.date`. -/
structure SimpleDate where
  year : ℤ
  month : ℤ
  day : ℤ

/-- Python `str.strip()` restricted to whitespace, character-wise (the code
only ever strips short column labels). -/
def stripStr (s : String) : String :=
  ⟨((s.data.dropWhile Char.isWhitespace).reverse.dropWhile Char.isWhitespace).reverse⟩

/-- Python `str.lower()`, character-wise. -/
def lowerStr (s : String) : String := ⟨s.data.map Char.toLower⟩

namespace Financeiro

/-! ## `src/abas/financeiro.py` -/

/-- `_to_month` (line 15): normalize a date to the first day of its month:
`date(dt.year, dt.month, 1)`. -/
def _to_month (dt : SimpleDate) : SimpleDate := ⟨dt.year, dt.month, 1⟩

/-- Dates that are first-of-month are ordered by (year, month); `monthKey`
realises that order as an integer, `12*year + month`, which is the sort/group
key used for the `mes` column. -/
def monthKey (d : SimpleDate) : ℤ := 12 * d.year + d.month

/-- One row of the `cashflows` DataFrame taken by `_aggregate_monthly`:
columns `data` (a date, `none` when `_parse_date` failed, i.e. pandas NA),
`valor` and `tipo`. -/
structure CashRow where
  data : Option SimpleDate
  valor : ℚ
  tipo : String

/-- Line 34: `valor_signed`: `r["valor"] if str(r["tipo"]).strip().lower() ==
"entrada" else -r["valor"]`. -/
def valorSigned (r : CashRow) : ℚ :=
  if lowerStr (stripStr r.tipo) = "entrada" then r.valor else -r.valor

/-- pandas `groupby(key).sum()` on (key, value) pairs followed by
`sort_values(key)`: one output row per distinct key, carrying the sum of the
values of that key, keys ascending. -/
def groupSumSorted {M : Type} [AddCommMonoid M] (pairs : List (ℤ × M)) : List (ℤ × M) :=
  ((pairs.map Prod.fst).dedup.insertionSort (· ≤ ·)).map
    fun k => (k, ((pairs.filter fun p => p.1 = k).map Prod.snd).sum)

/-- The rows of `_aggregate_monthly`'s frame that survive the
`df["data"].notna()` filter (lines 28-29), carried to their group key and
signed value (lines 34-35): one `(month, valor_signed)` pair per row with a
parseable date. -/
def validFlows (cashflows : List CashRow) : List (ℤ × ℚ) :=
  cashflows.filterMap fun r =>
    r.data.map fun d => (monthKey (_to_month d), valorSigned r)

/-- `_aggregate_monthly` (lines 19-38): parse dates (already done in the
model: a failed parse is `none`), drop NA dates, attach the signed value, fold
each date to its month and group-sum by month, sorted by month.  The two early
returns for empty frames coincide with the general path, which sends an empty
list to the empty list. -/
def _aggregate_monthly (cashflows : List CashRow) : List (ℤ × ℚ) :=
  groupSumSorted (validFlows cashflows)

/-- The total signed amount contributed to month `k` by a list of
`(month, value)` pairs. -/
def keySum (pairs : List (ℤ × ℚ)) (k : ℤ) : ℚ :=
  ((pairs.filter fun p => p.1 = k).map Prod.snd).sum

/-- `_npv` (lines 40-47): `sum(v / ((1 + rate_monthly) ** n) for n, v in
flows)`; the `if not flows: return 0.0` early return coincides with the empty
sum. -/
def _npv (rate_monthly : ℚ) (flows : List (ℕ × ℚ)) : ℚ :=
  (flows.map fun p => p.2 / (1 + rate_monthly) ^ p.1).sum

/-- The NPV computed inside `_irr` (lines 61-64): `denom = [(1 + r) ** i for i
in range(len(flows))]`, `npv = sum(cf / d for cf, d in zip(flows, denom))`.
Lean's `/` on ℚ is total (division by zero yields 0), so this agrees with the
source only while `1 + r ≠ 0`; at `1 + r = 0` the source raises an uncaught
`ZeroDivisionError` instead (line 64 sits outside the `try` of lines 60-63,
which guards only the `denom` list).  The crash-aware `newtonLoopRun` below
tests for that case before using this function. -/
def npvAt (flows : List ℚ) (r : ℚ) : ℚ :=
  ((flows.zip ((List.range flows.length).map fun i => (1 + r) ^ i)).map
    fun p => p.1 / p.2).sum

/-- The NPV derivative computed inside `_irr` (line 65):
`d_npv = sum(-i * cf / ((1 + r) ** (i + 1)) for i, cf in enumerate(flows))`.
As with `npvAt`, this agrees with the source only while `1 + r ≠ 0` (at
`1 + r = 0` the source raises `ZeroDivisionError` on the `i = 0` term). -/
def dNpvAt (flows : List ℚ) (r : ℚ) : ℚ :=
  (flows.enum.map fun p => -(p.1 : ℚ) * p.2 / (1 + r) ^ (p.1 + 1)).sum

/-- The `for _ in range(100)` Newton-Raphson loop of `_irr` (lines 58-74),
with the remaining iteration count made explicit.  Exhausting the fuel is the
fall-through `return None` of line 74.  This is the total-division
idealization: it coincides with the source exactly while no iterate reaches
`1 + r = 0` (as on the trajectory used for the IRR round-trip below); an
iterate with `1 + r = 0` makes the source raise an uncaught
`ZeroDivisionError`, which this `Option`-valued loop cannot express — see
`newtonLoopRun` for the faithful, crash-aware model. -/
def newtonLoop (flows : List ℚ) : ℕ → ℚ → Option ℚ
  | 0, _ => none
  | fuel + 1, r =>
    if |dNpvAt flows r| < 1 / 1000000000000 then none
    else
      if |(r - npvAt flows r / dNpvAt flows r) - r| < 1 / 1000000000 then
        if -9999 / 10000 < r - npvAt flows r / dNpvAt flows r ∧
            r - npvAt flows r / dNpvAt flows r < 10 then
          some (r - npvAt flows r / dNpvAt flows r)
        else none
      else newtonLoop flows fuel (r - npvAt flows r / dNpvAt flows r)

/-- `_irr` (lines 49-74): monthly IRR by Newton-Raphson, `None` on the trivial
series (`len(flows) < 2 or all(abs(x) < 1e-12 for x in flows)`), otherwise the
loop with 100 iterations of fuel.  Total-division idealization, faithful on
every run whose iterates all keep `1 + r ≠ 0`; the crash-aware model of the
full behaviour (including the uncaught `ZeroDivisionError`) is `irrRun`. -/
def _irr (flows : List ℚ) (guess : ℚ := 1 / 10) : Option ℚ :=
  if flows.length < 2 ∨ ∀ x ∈ flows, |x| < 1 / 1000000000000 then none
  else newtonLoop flows 100 guess

/-- The three observable results of one run of `_irr`: an uncaught
`ZeroDivisionError` escaping the function, the `None` sentinel, or a returned
root. -/
inductive IrrRun where
  | raisesZeroDiv : IrrRun
  | returnsNone : IrrRun
  | returnsRoot : ℚ → IrrRun

/-- The Newton-Raphson loop of `_irr` (lines 58-74) with the division-by-zero
crash modelled.  When the current iterate has `1 + r = 0` and the series is
nonempty, Python raises an uncaught `ZeroDivisionError` before any check of
this iteration: the `try` of lines 60-63 guards only the `denom` list
(`0.0 ** i` raises nothing), and then line 64 divides `cf / 0.0` when
`len(flows) ≥ 2`, line 65 divides `-0 * cf / 0.0` when `len(flows) = 1`.  In
every other case all divisions are by nonzero values, so the total-division
`npvAt`/`dNpvAt` agree with the source (the update's division by `d_npv` is
guarded by the `1e-12` check). -/
def newtonLoopRun (flows : List ℚ) : ℕ → ℚ → IrrRun
  | 0, _ => .returnsNone
  | fuel + 1, r =>
    if 1 + r = 0 ∧ 1 ≤ flows.length then .raisesZeroDiv
    else if |dNpvAt flows r| < 1 / 1000000000000 then .returnsNone
    else
      if |(r - npvAt flows r / dNpvAt flows r) - r| < 1 / 1000000000 then
        if -9999 / 10000 < r - npvAt flows r / dNpvAt flows r ∧
            r - npvAt flows r / dNpvAt flows r < 10 then
          .returnsRoot (r - npvAt flows r / dNpvAt flows r)
        else .returnsNone
      else newtonLoopRun flows fuel (r - npvAt flows r / dNpvAt flows r)

/-- `_irr` (lines 49-74) with the crash path modelled: the trivial-series
guard returns `None`, and otherwise the run behaves as `newtonLoopRun`. -/
def irrRun (flows : List ℚ) (guess : ℚ := 1 / 10) : IrrRun :=
  if flows.length < 2 ∨ ∀ x ∈ flows, |x| < 1 / 1000000000000 then .returnsNone
  else newtonLoopRun flows 100 guess

/-- Line 262: `tir_a = (1 + tir_m) ** 12 - 1` (annualized IRR, applied only
when the monthly IRR is defined). -/
def tirAnual (tir_m : ℚ) : ℚ := (1 + tir_m) ^ (12 : ℕ) - 1

/-- The loop of `_payback_months` (lines 82-94) with the running balance
`cum` and position `i` explicit: `prev = cum; cum += cf;
if prev < 0 <= cum: return i + (0 if abs(cf) < 1e-12 else -prev / cf)`. -/
def paybackLoop : List ℚ → ℚ → ℕ → Option ℚ
  | [], _, _ => none
  | cf :: rest, cum, i =>
    if cum < 0 ∧ 0 ≤ cum + cf then
      some ((i : ℚ) + if |cf| < 1 / 1000000000000 then 0 else -cum / cf)
    else paybackLoop rest (cum + cf) (i + 1)

/-- `_payback_months` (lines 76-94): walk the flows from `cum = 0.0`,
returning at the first crossing of the running balance from negative to
non-negative, `None` if it never happens. -/
def _payback_months (flows : List ℚ) : Option ℚ :=
  paybackLoop flows 0 0

/-- `taxa_am` (line 216 of `aba_financeiro`): monthly rate equivalent to the
annual percentage `taxa_aa`: `(1 + taxa_aa/100.0) ** (1/12) - 1`. -/
noncomputable def taxa_am (taxa_aa : ℝ) : ℝ :=
  (1 + taxa_aa / 100) ^ ((1 : ℝ) / 12) - 1

/-! ### The amended enumeration of IRR outcomes

The specification enumerates the cases in which the monthly IRR is
"undefined" (fewer than 2 flow points; all values ≈ 0; derivative ≈ 0 at some
iteration; converged root out of the sanity band; no convergence in 100
iterations) and states that in every other case the converged root is
returned.  That enumeration misses one reachable behaviour: when an iterate
reaches exactly `r = -1`, the NPV accumulation of line 64 divides by zero
outside the `try` and the function raises an uncaught `ZeroDivisionError`
rather than returning anything.  `irrOutcome` is the enumeration amended with
that crash label, written as a function, to be compared against `irrRun`. -/

/-- The possible outcomes of the monthly IRR computation: the spec's five
"undefined" cases and the converged root, plus the crash at an iterate with
`1 + r = 0` that the spec's enumeration misses. -/
inductive IrrOutcome where
  | tooFewPoints : IrrOutcome
  | allValuesTiny : IrrOutcome
  | zeroDivisionAtIterate : IrrOutcome
  | derivativeTiny : IrrOutcome
  | rootOutOfBand : ℚ → IrrOutcome
  | noConvergence : IrrOutcome
  | root : ℚ → IrrOutcome

/-- The observable run result of each outcome: the converged root for
`root`, the uncaught exception for `zeroDivisionAtIterate`, "undefined"
(`None`) for the five failure cases. -/
def IrrOutcome.run : IrrOutcome → IrrRun
  | .root r => .returnsRoot r
  | .zeroDivisionAtIterate => .raisesZeroDiv
  | _ => .returnsNone

/-- The outcome of the Newton-Raphson iteration, following the spec's
wording amended by the crash case: an iterate with `1 + r = 0` (on a
nonempty series) crashes before any check; otherwise the derivative-≈0 check
fails first, then the update `r_new = r - NPV(r)/NPV'(r)` converged
(`|r_new - r| < 1e-9`) is accepted iff it lies in the open band
`(-0.9999, 10)`; running out of the iteration budget is non-convergence. -/
def newtonOutcome (flows : List ℚ) : ℕ → ℚ → IrrOutcome
  | 0, _ => .noConvergence
  | fuel + 1, r =>
    if 1 + r = 0 ∧ 1 ≤ flows.length then .zeroDivisionAtIterate
    else if |dNpvAt flows r| < 1 / 1000000000000 then .derivativeTiny
    else
      if |(r - npvAt flows r / dNpvAt flows r) - r| < 1 / 1000000000 then
        if -9999 / 10000 < r - npvAt flows r / dNpvAt flows r ∧
            r - npvAt flows r / dNpvAt flows r < 10 then
          .root (r - npvAt flows r / dNpvAt flows r)
        else .rootOutOfBand (r - npvAt flows r / dNpvAt flows r)
      else newtonOutcome flows fuel (r - npvAt flows r / dNpvAt flows r)

/-- The amended full case analysis for the monthly IRR: fewer than 2 points;
else every value of absolute value < 1e-12; else the Newton iteration outcome
with a budget of 100 iterations. -/
def irrOutcome (flows : List ℚ) (guess : ℚ) : IrrOutcome :=
  if flows.length < 2 then .tooFewPoints
  else if ∀ x ∈ flows, |x| < 1 / 1000000000000 then .allValuesTiny
  else newtonOutcome flows 100 guess

end Financeiro

namespace FinanceiroProjeto

/-! ## `src/modules/financeiro_projeto.py` (and the near-identical
`_expandir_fluxo_min` of `src/modules/dashboard.py`)

Dates are modelled as integer day numbers (days since 1970-01-01), so that
`(d - data_base).days` is plain subtraction.  `civilFromDays`/`daysFromCivil`
convert between day numbers and (year, month, day) triples (standard
proleptic-Gregorian conversion), which models `d.year`/`d.month` access and
`date(d.year, d.month, 1)`.

`pd.date_range(start, periods=parcelas, freq=...)` is calendar generation
glue; it is abstracted as a parameter `dateGen : ℤ → String → ℕ → List ℤ`
(start, frequency label, periods ↦ occurrence dates), and every theorem about
this module is quantified over `dateGen`, hence holds for the actual
generator. -/

/-- Day number → (year, month, day) in the proleptic Gregorian calendar
(Howard Hinnant's `civil_from_days`; all divisions act on non-negative
operands). -/
def civilFromDays (z : ℤ) : ℤ × ℤ × ℤ :=
  let z' := z + 719468
  let era := Int.fdiv (if 0 ≤ z' then z' else z' - 146096) 146097
  let doe := z' - era * 146097
  let yoe := Int.fdiv (doe - Int.fdiv doe 1460 + Int.fdiv doe 36524 - Int.fdiv doe 146096) 365
  let y := yoe + era * 400
  let doy := doe - (365 * yoe + Int.fdiv yoe 4 - Int.fdiv yoe 100)
  let mp := Int.fdiv (5 * doy + 2) 153
  let d := doy - Int.fdiv (153 * mp + 2) 5 + 1
  let m := mp + if mp < 10 then 3 else -9
  (y + (if m ≤ 2 then 1 else 0), m, d)

/-- (year, month, day) → day number (Howard Hinnant's `days_from_civil`). -/
def daysFromCivil (y m d : ℤ) : ℤ :=
  let y' := if m ≤ 2 then y - 1 else y
  let era := Int.fdiv (if 0 ≤ y' then y' else y' - 399) 400
  let yoe := y' - era * 400
  let doy := Int.fdiv (153 * (m + if 2 < m then -3 else 9) + 2) 5 + d - 1
  let doe := yoe * 365 + Int.fdiv yoe 4 - Int.fdiv yoe 100 + doy
  era * 146097 + doe - 719468

/-- `date(d.year, d.month, 1)` on day numbers (line 155: the `competencia`
fold of a generated occurrence date to the first day of its month). -/
def monthFold (z : ℤ) : ℤ :=
  daysFromCivil (civilFromDays z).1 (civilFromDays z).2.1 1

/-- One row of the `lancamentos` base (the columns `_expandir_fluxo` reads).
`data_inicio = none` models a missing/NaT start date, which falls back to
`data_base`. -/
structure Lanc where
  id : String
  projeto : String
  tipo : String
  categoria : String
  descricao : String
  valor : ℝ
  data_inicio : Option ℤ
  periodicidade : String
  parcelas : ℕ
  cenario : String

/-- The parameter row used by the analysis tab (the fields `_expandir_fluxo`,
`_npv` and the sensitivity block read). -/
structure ParamsFin where
  taxa_desconto_anual : ℝ
  horizonte_meses : ℤ
  data_base : ℤ
  indice_inflacao_anual : ℝ
  cenario : String

/-- The annual→monthly rate conversion used throughout the module
(lines 171, 181, 188): `(1 + taxa_anual) ** (1/12) - 1`, the exact
compound-interest equivalent rate. -/
noncomputable def to_monthly_rate (taxa_anual : ℝ) : ℝ :=
  (1 + taxa_anual) ^ ((1 : ℝ) / 12) - 1

/-- Lines 140-149: the occurrence-date list of one entry: `[start]` for
`"Único"` (or an unknown label), `pd.date_range(start, periods=parcelas,
freq=...)` for the three recurring frequencies, here delivered by
`dateGen`. -/
def datasOf (dateGen : ℤ → String → ℕ → List ℤ) (data_base : ℤ) (row : Lanc) : List ℤ :=
  let start := row.data_inicio.getD data_base
  if row.periodicidade = "Único" then [start]
  else if row.periodicidade = "Mensal" ∨ row.periodicidade = "Trimestral" ∨
      row.periodicidade = "Anual" then
    dateGen start row.periodicidade row.parcelas
  else [start]

/-- Lines 151-153: the per-entry emission loop: walk the occurrence dates in
order, `break` at the first date with `(d - data_base).days/30.0 >
horizonte`, emit `(d, valor)` for the dates before it. -/
def emitOccurrences {α : Type} (data_base horizonte : ℤ) (valor : α) :
    List ℤ → List (ℤ × α)
  | [] => []
  | d :: datas =>
    if ((d - data_base : ℤ) : ℚ) / 30 > (horizonte : ℚ) then []
    else (d, valor) :: emitOccurrences data_base horizonte valor datas

/-- `_expandir_fluxo` (lines 112-176): filter the ledger to the project (and
scenario, when one is set), sign the values (`Despesa` negative), expand each
entry's occurrences under the horizon cut-off, fold occurrence dates to
months (`competencia`), group-sum by month, and optionally deflate by the
monthly-equivalent inflation rate over `clip((competencia - data_base).days
// 30, 0)` months. -/
noncomputable def _expandir_fluxo (dateGen : ℤ → String → ℕ → List ℤ)
    (df_lanc : List Lanc) (projeto : String) (params : ParamsFin) : List (ℤ × ℝ) :=
  if projeto = "" then []
  else
    let dfp := df_lanc.filter fun l => l.projeto = projeto
    let dfp := if params.cenario = "" then dfp
      else dfp.filter fun l => l.cenario = params.cenario ∨ l.cenario = ""
    let dfp := dfp.map fun l =>
      { l with valor := if lowerStr l.tipo = "despesa" then -l.valor else l.valor }
    let linhas := dfp.flatMap fun row =>
      (emitOccurrences params.data_base params.horizonte_meses row.valor
        (datasOf dateGen params.data_base row)).map fun p => (monthFold p.1, p.2)
    let fluxo := Financeiro.groupSumSorted linhas
    if params.indice_inflacao_anual = 0 then fluxo
    else fluxo.map fun p =>
      (p.1, p.2 / (1 + to_monthly_rate params.indice_inflacao_anual) ^
        (max 0 (Int.fdiv (p.1 - params.data_base) 30)).toNat)

/-- `_npv` (lines 178-183): discount each month's value over
`clip((competencia - data_base).days // 30, 0)` months at the
monthly-equivalent discount rate; the empty-frame early return coincides with
the empty sum. -/
noncomputable def _npv (fluxo : List (ℤ × ℝ)) (taxa_anual : ℝ) (data_base : ℤ) : ℝ :=
  (fluxo.map fun p =>
    p.2 / (1 + to_monthly_rate taxa_anual) ^
      (max 0 (Int.fdiv (p.1 - data_base) 30)).toNat).sum

/-- The stored ledger base (`bases/projetos_fin_lanc.xlsx`), the only state
the sensitivity block could touch. -/
structure Store where
  lanc : List Lanc

/-- `_load_lanc()` as seen by the sensitivity block: read the stored ledger
(the `st.cache_data` wrapper returns a fresh copy, and line 417 copies again,
so the run works on a copy). -/
def _load_lanc (s : Store) : List Lanc := s.lanc

/-- Lines 419-420: scale `Receita` rows of the project by `mult_receita` and
`Despesa` rows by `mult_despesa`, on the copied frame. -/
def aplicarMultiplicadores (dfl : List Lanc) (projeto : String)
    (mult_receita mult_despesa : ℝ) : List Lanc :=
  dfl.map fun l =>
    if l.projeto = projeto ∧ l.tipo = "Receita" then
      { l with valor := l.valor * mult_receita }
    else if l.projeto = projeto ∧ l.tipo = "Despesa" then
      { l with valor := l.valor * mult_despesa }
    else l

/-- The sensitivity (what-if) block (lines 415-423), as a state-passing
function on the stored ledger: load a copy of the ledger, apply the two
multipliers, re-expand the flow and compute the NPV at the shifted rate
`taxa_desconto_anual + delta_taxa/100`.  No save is performed, so the store
is returned unchanged. -/
noncomputable def sensibilidade (dateGen : ℤ → String → ℕ → List ℤ) (s : Store)
    (projeto_ctx : String) (linha : ParamsFin)
    (delta_taxa mult_receita mult_despesa : ℝ) : Store × ℝ :=
  let dfl2 := _load_lanc s
  let dfl2 := aplicarMultiplicadores dfl2 projeto_ctx mult_receita mult_despesa
  let fluxo_sens := _expandir_fluxo dateGen dfl2 projeto_ctx linha
  let vpl_sens := _npv fluxo_sens (linha.taxa_desconto_anual + delta_taxa / 100)
    linha.data_base
  (s, vpl_sens)

end FinanceiroProjeto

/-! ## Theorems -/

open Financeiro FinanceiroProjeto

/-- **C9.** For every flow list, NPV evaluated at monthly rate 0 equals the
plain (undiscounted) sum of all the flow amounts in the series passed to it
(`_npv`, lines 40-47 of `src/abas/financeiro.py`). -/
theorem npv_zero_rate_eq_sum (flows : List (ℕ × ℚ)) :
    Financeiro._npv 0 flows = (flows.map Prod.snd).sum := by
  simp [Financeiro._npv]

/-- The payback loop returns `None` whenever the running balance is never
strictly negative at the start of a step. -/
theorem paybackLoop_none_of_nonneg :
    ∀ (flows : List ℚ) (cum : ℚ) (i : ℕ),
      (∀ j < flows.length, 0 ≤ cum + (flows.take j).sum) →
      paybackLoop flows cum i = none
  | [], _, _, _ => rfl
  | cf :: rest, cum, i, h => by
    have h0 : 0 ≤ cum := by simpa using h 0 (Nat.succ_pos _)
    rw [paybackLoop, if_neg fun hc => absurd hc.1 (not_lt.mpr h0)]
    refine paybackLoop_none_of_nonneg rest (cum + cf) (i + 1) fun j hj => ?_
    have := h (j + 1) (Nat.succ_lt_succ hj)
    simpa [add_assoc] using this

/-- **C10.** `_payback_months` returns the undefined sentinel (`None`) for
every flow list whose running cumulative balance is never strictly negative
immediately before a step: a defined payback requires a strict crossing from
a negative balance to a balance ≥ 0 (lines 76-94 of
`src/abas/financeiro.py`). -/
theorem payback_none_of_balance_never_negative (flows : List ℚ)
    (h : ∀ j < flows.length, 0 ≤ (flows.take j).sum) :
    _payback_months flows = none := by
  refine paybackLoop_none_of_nonneg flows 0 0 fun j hj => ?_
  simpa using h j hj

/-- Witness for C10 at the flow `[100, 100, 100]`: its running balance is
never negative, and the payback is indeed undefined. -/
theorem payback_none_of_balance_never_negative_witness :
    (∀ j < ([100, 100, 100] : List ℚ).length, 0 ≤ (([100, 100, 100] : List ℚ).take j).sum) ∧
      _payback_months [100, 100, 100] = none := by
  have hb : ∀ j < ([100, 100, 100] : List ℚ).length,
      0 ≤ (([100, 100, 100] : List ℚ).take j).sum := by
    intro j hj
    simp only [List.length_cons, List.length_nil] at hj
    interval_cases j <;> norm_num
  exact ⟨hb, payback_none_of_balance_never_negative _ hb⟩

/-- The payback loop at the first crossing step: if step `k` is the first
position whose starting balance is negative and whose ending balance is
non-negative, the loop returns `i0 + k` plus the fractional month
`need / flow[k]` (0 when the crossing flow is ≈ 0), with
`need = -(balance before step k)`. -/
theorem paybackLoop_first_crossing :
    ∀ (flows : List ℚ) (cum : ℚ) (i0 k : ℕ), k < flows.length →
      (cum + (flows.take k).sum < 0 ∧ 0 ≤ cum + (flows.take (k + 1)).sum) →
      (∀ j < k, ¬(cum + (flows.take j).sum < 0 ∧ 0 ≤ cum + (flows.take (j + 1)).sum)) →
      paybackLoop flows cum i0 =
        some (((i0 + k : ℕ) : ℚ) +
          if |flows.getD k 0| < 1 / 1000000000000 then 0
          else -(cum + (flows.take k).sum) / flows.getD k 0)
  | [], _, _, k, hk, _, _ => absurd hk (Nat.not_lt_zero k)
  | cf :: rest, cum, i0, 0, _, hc, _ => by
    have hc' : cum < 0 ∧ 0 ≤ cum + cf := by simpa using hc
    rw [paybackLoop, if_pos hc']
    simp
  | cf :: rest, cum, i0, k + 1, hk, hc, hmin => by
    have hnot : ¬(cum < 0 ∧ 0 ≤ cum + cf) := by
      have := hmin 0 (Nat.succ_pos k)
      simpa using this
    rw [paybackLoop, if_neg hnot]
    have hrec := paybackLoop_first_crossing rest (cum + cf) (i0 + 1) k
      (Nat.lt_of_succ_lt_succ hk)
      (by constructor
          · have := hc.1
            simpa [add_assoc] using this
          · have := hc.2
            simpa [add_assoc] using this)
      (fun j hj => by
        have := hmin (j + 1) (Nat.succ_lt_succ hj)
        simpa [add_assoc] using this)
    rw [hrec]
    have harith : ((i0 + 1 + k : ℕ) : ℚ) = ((i0 + (k + 1) : ℕ) : ℚ) := by
      push_cast
      ring
    rw [harith]
    simp [add_assoc]

/-- **C2 (counterexample).** For the flow `[-1000, 400, 400, 400]` the simple
payback is NOT `2 + (1000-800)/400 = 2.5` months: the first index at which
the running balance crosses from negative to ≥ 0 is 3 (the balances before
the steps are 0, -1000, -600, -200), so the code returns 3.5. -/
theorem payback_boundary_counterexample :
    _payback_months [-1000, 400, 400, 400] ≠ some (2 + (1000 - 800) / 400) := by
  norm_num [_payback_months, paybackLoop, abs_lt]

/-- **C2 (amended).** For the flow `[-1000, 400, 400, 400]` the simple payback
computation returns `3 + (1000-800)/400 = 3.5` months; in general the first
index `i` at which the running balance crosses from negative to ≥ 0 yields
`payback = i + need/flow[i]` with `need` the negated balance before that step
(and fractional part 0 when the crossing flow is ≈ 0) — at this input the
crossing index is 3, not 2 (lines 76-94 of `src/abas/financeiro.py`). -/
theorem payback_first_crossing_rule (flows : List ℚ) (k : ℕ)
    (hk : k < flows.length)
    (hc : (flows.take k).sum < 0 ∧ 0 ≤ (flows.take (k + 1)).sum)
    (hmin : ∀ j < k, ¬((flows.take j).sum < 0 ∧ 0 ≤ (flows.take (j + 1)).sum)) :
    _payback_months flows =
      some ((k : ℚ) +
        if |flows.getD k 0| < 1 / 1000000000000 then 0
        else -(flows.take k).sum / flows.getD k 0) := by
  have h := paybackLoop_first_crossing flows 0 0 k hk (by simpa using hc)
    (fun j hj => by simpa using hmin j hj)
  simpa using h

/-- Witness for the amended C2: at `[-1000, 400, 400, 400]` the crossing
hypotheses hold at index 3 and the payback evaluates to
`3 + (1000-800)/400 = 3.5`. -/
theorem payback_first_crossing_rule_witness :
    _payback_months [-1000, 400, 400, 400] = some (3 + (1000 - 800) / 400) := by
  have h := payback_first_crossing_rule [-1000, 400, 400, 400] 3
    (by norm_num)
    (by norm_num)
    (by
      intro j hj
      interval_cases j <;> norm_num)
  rw [h]
  norm_num [abs_lt]

/-- **C6.** The sensitivity (what-if) run is pure with respect to the stored
ledger: it returns the store unchanged, and its numeric output is exactly the
NPV of the re-expanded, multiplier-scaled copy at the shifted rate — a
function of the inputs alone, so two runs with identical inputs return
identical results (lines 410-423 of `src/modules/financeiro_projeto.py`). -/
theorem sensibilidade_pure (dateGen : ℤ → String → ℕ → List ℤ) (s : Store)
    (projeto_ctx : String) (linha : ParamsFin)
    (delta_taxa mult_receita mult_despesa : ℝ) :
    (sensibilidade dateGen s projeto_ctx linha delta_taxa mult_receita mult_despesa).1 = s ∧
      (sensibilidade dateGen s projeto_ctx linha delta_taxa mult_receita mult_despesa).2 =
        FinanceiroProjeto._npv
          (_expandir_fluxo dateGen
            (aplicarMultiplicadores (_load_lanc s) projeto_ctx mult_receita mult_despesa)
            projeto_ctx linha)
          (linha.taxa_desconto_anual + delta_taxa / 100) linha.data_base :=
  ⟨rfl, rfl⟩

/-- **C5.** Every occurrence emitted by the recurrence-expansion loop
satisfies the 30-day-per-month horizon bound
`(d - data_base).days / 30 ≤ horizonte`, whatever the generated occurrence
date list is — in particular regardless of the entry's `parcelas` count
(lines 151-153 of `src/modules/financeiro_projeto.py` and lines 74-77 of
`src/modules/dashboard.py`). -/
theorem emit_horizon_bound {α : Type} (data_base horizonte : ℤ) (valor : α)
    (datas : List ℤ) (p : ℤ × α)
    (hp : p ∈ emitOccurrences data_base horizonte valor datas) :
    ((p.1 - data_base : ℤ) : ℚ) / 30 ≤ (horizonte : ℚ) := by
  induction datas with
  | nil => cases hp
  | cons d rest ih =>
    rw [emitOccurrences] at hp
    by_cases hcond : ((d - data_base : ℤ) : ℚ) / 30 > (horizonte : ℚ)
    · rw [if_pos hcond] at hp
      cases hp
    · rw [if_neg hcond] at hp
      cases hp with
      | head => exact not_lt.mp hcond
      | tail _ h => exact ih h

/-- Witness for C5: a concrete emitted occurrence on which the horizon bound
is discharged. -/
theorem emit_horizon_bound_witness :
    ((0 : ℤ), (100 : ℚ)) ∈ emitOccurrences 0 12 (100 : ℚ) [0] ∧
      ((((0 : ℤ), (100 : ℚ)).1 - 0 : ℤ) : ℚ) / 30 ≤ ((12 : ℤ) : ℚ) := by
  have hm : ((0 : ℤ), (100 : ℚ)) ∈ emitOccurrences 0 12 (100 : ℚ) [0] := by
    norm_num [emitOccurrences]
  exact ⟨hm, emit_horizon_bound 0 12 100 [0] _ hm⟩

/-- `_irr`'s internal NPV on a two-point series. -/
theorem npvAt_pair (a b r : ℚ) : npvAt [a, b] r = a + b / (1 + r) := by
  have h : List.range 2 = [0, 1] := rfl
  simp [npvAt, h]

/-- `_irr`'s internal NPV derivative on a two-point series. -/
theorem dNpvAt_pair (a b r : ℚ) : dNpvAt [a, b] r = -(b / (1 + r) ^ 2) := by
  have h : ([a, b] : List ℚ).enum = [(0, a), (1, b)] := rfl
  simp [dNpvAt, h]
  ring

/-- One non-converging Newton iteration: when the derivative check passes and
`r_new = r - NPV(r)/NPV'(r)` has not converged, the loop recurses on
`r_new`. -/
theorem newtonLoop_go (flows : List ℚ) (fuel : ℕ) (r rNew : ℚ)
    (hd : ¬|dNpvAt flows r| < 1 / 1000000000000)
    (hr : rNew = r - npvAt flows r / dNpvAt flows r)
    (hconv : ¬|rNew - r| < 1 / 1000000000) :
    newtonLoop flows (fuel + 1) r = newtonLoop flows fuel rNew := by
  rw [newtonLoop, ← hr, if_neg hd, if_neg hconv]

/-- A converging Newton iteration inside the sanity band returns the root. -/
theorem newtonLoop_conv (flows : List ℚ) (fuel : ℕ) (r rNew : ℚ)
    (hd : ¬|dNpvAt flows r| < 1 / 1000000000000)
    (hr : rNew = r - npvAt flows r / dNpvAt flows r)
    (hconv : |rNew - r| < 1 / 1000000000)
    (hband : -9999 / 10000 < rNew ∧ rNew < 10) :
    newtonLoop flows (fuel + 1) r = some rNew := by
  rw [newtonLoop, ← hr, if_neg hd, if_pos hconv, if_pos hband]

/-- Newton iteration 1 on `[-1000, 1100]` from the guess 0.05. -/
theorem newtonStep1 :
    newtonLoop [-1000, 1100] 100 (1 / 20) =
      newtonLoop [-1000, 1100] 99 (43 / 440) :=
  newtonLoop_go _ 99 _ _
    (by rw [dNpvAt_pair]; norm_num [abs_lt])
    (by rw [npvAt_pair, dNpvAt_pair]; norm_num)
    (by norm_num [abs_lt])

/-- Newton iteration 2. -/
theorem newtonStep2 :
    newtonLoop [-1000, 1100] 99 (43 / 440) =
      newtonLoop [-1000, 1100] 98 (4259 / 42592) :=
  newtonLoop_go _ 98 _ _
    (by rw [dNpvAt_pair]; norm_num [abs_lt])
    (by rw [npvAt_pair, dNpvAt_pair]; norm_num)
    (by norm_num [abs_lt])

/-- Newton iteration 3. -/
theorem newtonStep3 :
    newtonLoop [-1000, 1100] 98 (4259 / 42592) =
      newtonLoop [-1000, 1100] 97 (997743155 / 9977431552) :=
  newtonLoop_go _ 97 _ _
    (by rw [dNpvAt_pair]; norm_num [abs_lt])
    (by rw [npvAt_pair, dNpvAt_pair]; norm_num)
    (by norm_num [abs_lt])

/-- Newton iteration 4 converges (`|r_new - r| < 1e-9`) to a root inside the
sanity band, so the loop returns it. -/
theorem newtonStep4 :
    newtonLoop [-1000, 1100] 97 (997743155 / 9977431552) =
      some (54752027206164820787 / 547520272061648207872) :=
  newtonLoop_conv _ 96 _ _
    (by rw [dNpvAt_pair]; norm_num [abs_lt])
    (by rw [npvAt_pair, dNpvAt_pair]; norm_num)
    (by norm_num [abs_lt])
    (by norm_num)

/-- **C3.** For the two-point flow `[-1000, 1100]` at positions n = 0, 1 (and
the guess 0.05 used by `aba_financeiro`), `_irr` returns a defined root `r`
with `|NPV(r)| < 1e-6`, and the annualized IRR `(1+r)^12 - 1` is within 1e-6
of `(1.1)^12 - 1 = 2.138428376721` (≈ 213.8%) (lines 49-74 and 258-262 of
`src/abas/financeiro.py`). -/
theorem irr_roundtrip_two_point :
    ∃ r : ℚ, _irr [-1000, 1100] (1 / 20) = some r ∧
      |npvAt [-1000, 1100] r| < 1 / 1000000 ∧
      |tirAnual r - tirAnual (1 / 10)| < 1 / 1000000 ∧
      tirAnual (1 / 10) = 2138428376721 / 1000000000000 := by
  refine ⟨54752027206164820787 / 547520272061648207872, ?_, ?_, ?_, ?_⟩
  · rw [_irr, if_neg (by norm_num [abs_lt])]
    rw [newtonStep1, newtonStep2, newtonStep3, newtonStep4]
  · rw [npvAt_pair]
    norm_num [abs_lt]
  · norm_num [tirAnual, abs_lt]
  · norm_num [tirAnual]

/-- Rational bounds on the 12th root of 1.12: `1.0094880 < (1.12)^(1/12) <
1.0094895`. -/
theorem twelfth_root_bounds :
    (10094880 : ℝ) / 10000000 < ((112 : ℝ) / 100) ^ ((1 : ℝ) / 12) ∧
      ((112 : ℝ) / 100) ^ ((1 : ℝ) / 12) < (10094895 : ℝ) / 10000000 := by
  have hb : (0 : ℝ) < 112 / 100 := by norm_num
  have hx0 : (0 : ℝ) < ((112 : ℝ) / 100) ^ ((1 : ℝ) / 12) :=
    Real.rpow_pos_of_pos hb _
  have hx12 : (((112 : ℝ) / 100) ^ ((1 : ℝ) / 12)) ^ (12 : ℕ) = 112 / 100 := by
    rw [← Real.rpow_natCast (((112 : ℝ) / 100) ^ ((1 : ℝ) / 12)) 12,
      ← Real.rpow_mul hb.le]
    norm_num
  constructor
  · by_contra hle
    push_neg at hle
    have h2 : (((112 : ℝ) / 100) ^ ((1 : ℝ) / 12)) ^ (12 : ℕ) ≤
        ((10094880 : ℝ) / 10000000) ^ (12 : ℕ) :=
      pow_le_pow_left₀ hx0.le hle 12
    rw [hx12] at h2
    norm_num at h2
  · by_contra hge
    push_neg at hge
    have h2 : ((10094895 : ℝ) / 10000000) ^ (12 : ℕ) ≤
        (((112 : ℝ) / 100) ^ ((1 : ℝ) / 12)) ^ (12 : ℕ) :=
      pow_le_pow_left₀ (by norm_num) hge 12
    rw [hx12] at h2
    norm_num at h2

/-- **C4.** The annual→monthly rate conversion used throughout is the exact
compound-interest formula `(1+a)^(1/12) - 1`, not the linear `a/12`; the
percentage form of `aba_financeiro` (line 216) agrees with it, and at
`a = 0.12` it is within 1e-6 of 0.009489 — in particular it is not 0.01
(lines 213-217 of `src/abas/financeiro.py`, lines 178-184 of
`src/modules/financeiro_projeto.py`). -/
theorem to_monthly_rate_exact :
    (∀ a : ℝ, 0 ≤ a → to_monthly_rate a = (1 + a) ^ ((1 : ℝ) / 12) - 1) ∧
      (∀ taxa_aa : ℝ, taxa_am taxa_aa = to_monthly_rate (taxa_aa / 100)) ∧
      to_monthly_rate (12 / 100) ≠ (12 / 100) / 12 ∧
      |to_monthly_rate (12 / 100) - 9489 / 1000000| < 1 / 1000000 := by
  have hb := twelfth_root_bounds
  have h112 : (1 : ℝ) + 12 / 100 = 112 / 100 := by norm_num
  have hlow : (10094880 : ℝ) / 10000000 < (1 + (12 : ℝ) / 100) ^ ((1 : ℝ) / 12) := by
    rw [h112]; exact hb.1
  have hupp : ((1 : ℝ) + 12 / 100) ^ ((1 : ℝ) / 12) < 10094895 / 10000000 := by
    rw [h112]; exact hb.2
  refine ⟨fun a _ => rfl, fun taxa_aa => rfl, ?_, ?_⟩
  · rw [to_monthly_rate]
    have : ((12 : ℝ) / 100) / 12 = 1 / 100 := by norm_num
    rw [this]
    exact ne_of_lt (by linarith)
  · rw [to_monthly_rate, abs_lt]
    constructor <;> linarith

/-- Witness for C4 at the annual rate 0.12. -/
theorem to_monthly_rate_exact_witness :
    (0 : ℝ) ≤ 12 / 100 ∧
      to_monthly_rate (12 / 100) = (1 + 12 / 100) ^ ((1 : ℝ) / 12) - 1 :=
  ⟨by norm_num, to_monthly_rate_exact.1 (12 / 100) (by norm_num)⟩

/-- The group keys of `groupSumSorted` are the sorted, deduplicated keys of
the input. -/
theorem groupSumSorted_map_fst {M : Type} [AddCommMonoid M] (pairs : List (ℤ × M)) :
    (groupSumSorted pairs).map Prod.fst =
      (pairs.map Prod.fst).dedup.insertionSort (· ≤ ·) := by
  simp only [groupSumSorted, List.map_map]
  exact List.map_id _

/-- `groupSumSorted` produces strictly increasing keys: at most one row per
key, sorted ascending. -/
theorem groupSumSorted_pairwise_lt {M : Type} [AddCommMonoid M] (pairs : List (ℤ × M)) :
    (groupSumSorted pairs).Pairwise fun a b => a.1 < b.1 := by
  have hnd : ((pairs.map Prod.fst).dedup.insertionSort (· ≤ ·)).Nodup :=
    (List.perm_insertionSort _ _).nodup_iff.mpr (List.nodup_dedup _)
  have hsorted : List.Sorted (· ≤ ·) ((pairs.map Prod.fst).dedup.insertionSort (· ≤ ·)) :=
    List.sorted_insertionSort _ _
  have hlt : ((pairs.map Prod.fst).dedup.insertionSort (· ≤ ·)).Pairwise (· < ·) :=
    (hsorted.and hnd).imp fun h => lt_of_le_of_ne h.1 h.2
  rw [groupSumSorted]
  exact List.pairwise_map.mpr hlt

/-- Each row of `groupSumSorted` carries the sum of the input values of its
key. -/
theorem groupSumSorted_mem_snd {M : Type} [AddCommMonoid M] (pairs : List (ℤ × M))
    (p : ℤ × M) (hp : p ∈ groupSumSorted pairs) :
    p.2 = ((pairs.filter fun q => q.1 = p.1).map Prod.snd).sum := by
  rw [groupSumSorted] at hp
  rcases List.mem_map.mp hp with ⟨k, _, rfl⟩
  rfl

/-- On a duplicate-free list, filtering for one key keeps exactly that key
when present. -/
theorem filter_eq_of_nodup (l : List ℤ) (hl : l.Nodup) (k : ℤ) :
    (l.filter fun x => x = k) = if k ∈ l then [k] else [] := by
  induction l with
  | nil => simp
  | cons a t ih =>
    rcases List.nodup_cons.mp hl with ⟨ha, ht⟩
    by_cases hak : a = k
    · subst hak
      have hfilt : (t.filter fun x => x = a) = [] := by
        rw [ih ht, if_neg ha]
      simp [List.filter_cons, hfilt]
    · simp [List.filter_cons, hak, ih ht, Ne.symm hak]

/-- Looking a key up in a `groupSumSorted` result returns the same total as
looking it up in the raw pairs (a key that does not occur contributes 0 on
both sides). -/
theorem keySum_groupSumSorted (pairs : List (ℤ × ℚ)) (k : ℤ) :
    keySum (groupSumSorted pairs) k = keySum pairs k := by
  have hnd : ((pairs.map Prod.fst).dedup.insertionSort (· ≤ ·)).Nodup :=
    (List.perm_insertionSort _ _).nodup_iff.mpr (List.nodup_dedup _)
  rw [keySum, groupSumSorted, List.filter_map]
  have hcomp :
      ((fun p : ℤ × ℚ => decide (p.1 = k)) ∘
        fun k' => (k', ((pairs.filter fun p => p.1 = k').map Prod.snd).sum)) =
      fun k' => decide (k' = k) := rfl
  rw [hcomp, filter_eq_of_nodup _ hnd k]
  by_cases hk : k ∈ (pairs.map Prod.fst).dedup.insertionSort (· ≤ ·)
  · rw [if_pos hk]
    simp [keySum]
  · rw [if_neg hk]
    have hk' : k ∉ pairs.map Prod.fst := by
      intro hmem
      exact hk (((List.perm_insertionSort _ _).mem_iff).mpr (List.mem_dedup.mpr hmem))
    have hfil : (pairs.filter fun p => p.1 = k) = [] := by
      rw [List.filter_eq_nil_iff]
      intro p hp hpk
      exact hk' (List.mem_map.mpr ⟨p, hp, of_decide_eq_true hpk⟩)
    simp [keySum, hfil]

/-- Month-by-month totals add over list concatenation. -/
theorem keySum_append (xs ys : List (ℤ × ℚ)) (k : ℤ) :
    keySum (xs ++ ys) k = keySum xs k + keySum ys k := by
  simp [keySum]

/-- **C7.** The monthly aggregation has at most one row per calendar month
with strictly ascending months, each row's amount is the sum of all
contributing signed amounts of that month, and the empty input yields the
empty series (lines 19-38 of `src/abas/financeiro.py`). -/
theorem aggregate_monthly_invariants (rows : List CashRow) :
    (_aggregate_monthly rows).Pairwise (fun a b => a.1 < b.1) ∧
      (∀ p ∈ _aggregate_monthly rows, p.2 = keySum (validFlows rows) p.1) ∧
      _aggregate_monthly ([] : List CashRow) = [] :=
  ⟨groupSumSorted_pairwise_lt _, fun p hp => groupSumSorted_mem_snd _ p hp, rfl⟩

/-- Witness for C7 on a one-row ledger (January 2024, value 100, `Entrada`):
the aggregated row for month key `12*2024 + 1 = 24289` carries 100, which is
the month's contribution total. -/
theorem aggregate_monthly_invariants_witness :
    ((24289 : ℤ), (100 : ℚ)) ∈
        _aggregate_monthly [⟨some ⟨2024, 1, 15⟩, 100, "Entrada"⟩] ∧
      ((24289 : ℤ), (100 : ℚ)).2 =
        keySum (validFlows [⟨some ⟨2024, 1, 15⟩, 100, "Entrada"⟩]) (24289 : ℤ) := by
  have hstr : lowerStr (stripStr "Entrada") = "entrada" := by decide
  have hvf : validFlows [⟨some ⟨2024, 1, 15⟩, (100 : ℚ), "Entrada"⟩] =
      [((24289 : ℤ), (100 : ℚ))] := by
    norm_num [validFlows, valorSigned, hstr, monthKey, _to_month,
      List.filterMap_cons]
  have hval : _aggregate_monthly [⟨some ⟨2024, 1, 15⟩, (100 : ℚ), "Entrada"⟩] =
      [((24289 : ℤ), (100 : ℚ))] := by
    rw [_aggregate_monthly, hvf]
    norm_num [groupSumSorted, List.insertionSort, List.orderedInsert]
  have hmem : ((24289 : ℤ), (100 : ℚ)) ∈
      _aggregate_monthly [⟨some ⟨2024, 1, 15⟩, 100, "Entrada"⟩] := by
    rw [hval]
    exact List.mem_singleton.mpr rfl
  exact ⟨hmem, (aggregate_monthly_invariants _).2.1 _ hmem⟩

/-- **C8.** Monthly aggregation is additive over inputs: for every month,
aggregating two ledgers separately and adding the month's totals equals
aggregating the concatenation (lines 19-38 of `src/abas/financeiro.py`). -/
theorem aggregate_monthly_additive (A B : List CashRow) (k : ℤ) :
    keySum (_aggregate_monthly (A ++ B)) k =
      keySum (_aggregate_monthly A) k + keySum (_aggregate_monthly B) k := by
  have hsplit : validFlows (A ++ B) = validFlows A ++ validFlows B := by
    simp [validFlows]
  rw [_aggregate_monthly, _aggregate_monthly, _aggregate_monthly,
    keySum_groupSumSorted, keySum_groupSumSorted, keySum_groupSumSorted,
    hsplit, keySum_append]

/-- One non-converging iteration of the crash-aware Newton loop: the iterate
keeps `1 + r ≠ 0`, the derivative check passes, and
`r_new = r - NPV(r)/NPV'(r)` has not converged, so the loop recurses. -/
theorem newtonLoopRun_go (flows : List ℚ) (fuel : ℕ) (r rNew : ℚ)
    (h0 : ¬(1 + r = 0 ∧ 1 ≤ flows.length))
    (hd : ¬|dNpvAt flows r| < 1 / 1000000000000)
    (hr : rNew = r - npvAt flows r / dNpvAt flows r)
    (hconv : ¬|rNew - r| < 1 / 1000000000) :
    newtonLoopRun flows (fuel + 1) r = newtonLoopRun flows fuel rNew := by
  rw [newtonLoopRun, ← hr, if_neg h0, if_neg hd, if_neg hconv]

/-- An iterate with `1 + r = 0` on a nonempty series makes the crash-aware
Newton loop raise. -/
theorem newtonLoopRun_crash (flows : List ℚ) (fuel : ℕ) (r : ℚ)
    (h0 : 1 + r = 0 ∧ 1 ≤ flows.length) :
    newtonLoopRun flows (fuel + 1) r = IrrRun.raisesZeroDiv := by
  rw [newtonLoopRun, if_pos h0]

/-- **C1 (counterexample).** The claim's None-or-converged-root dichotomy
fails: for the flow list `[1, -1]` with guess 1, the first Newton update is
`r_new = 1 - 0.5/0.25 = -1` exactly, and the next iteration divides by
`1 + r = 0` in the NPV accumulation (line 64, outside the `try`), so the run
raises an uncaught `ZeroDivisionError` — it neither returns `None` nor
returns a converged root. -/
theorem irr_zero_division_counterexample :
    irrRun [1, -1] 1 = IrrRun.raisesZeroDiv ∧
      IrrRun.raisesZeroDiv ≠ IrrRun.returnsNone ∧
      ∀ r : ℚ, IrrRun.raisesZeroDiv ≠ IrrRun.returnsRoot r := by
  have h1 : irrRun [1, -1] 1 = newtonLoopRun [1, -1] 100 1 := by
    rw [irrRun, if_neg (by norm_num [abs_lt])]
  have h2 : newtonLoopRun [1, -1] 100 1 = newtonLoopRun [1, -1] 99 (-1) :=
    newtonLoopRun_go _ 99 _ _ (by norm_num)
      (by rw [dNpvAt_pair]; norm_num [abs_lt])
      (by rw [npvAt_pair, dNpvAt_pair]; norm_num)
      (by norm_num [abs_lt])
  have h3 : newtonLoopRun [1, -1] 99 (-1) = IrrRun.raisesZeroDiv :=
    newtonLoopRun_crash _ 98 _ (by norm_num)
  exact ⟨h1.trans (h2.trans h3),
    fun h => IrrRun.noConfusion h,
    fun r h => IrrRun.noConfusion h⟩

/-- The crash-aware Newton loop agrees case-by-case with the amended outcome
enumeration. -/
theorem newtonLoopRun_eq_outcome (flows : List ℚ) :
    ∀ (fuel : ℕ) (r : ℚ),
      newtonLoopRun flows fuel r = (newtonOutcome flows fuel r).run
  | 0, _ => rfl
  | fuel + 1, r => by
    rw [newtonLoopRun, newtonOutcome]
    split
    · rfl
    · split
      · rfl
      · split
        · split
          · rfl
          · rfl
        · exact newtonLoopRun_eq_outcome flows fuel _

/-- **C1 (amended).** A run of `_irr` returns `None` exactly in the five
cases enumerated by the spec (fewer than 2 points; all values tiny; tiny
derivative at some iteration; converged root outside `(-0.9999, 10)`; 100
iterations without convergence, where an iteration's checks apply only when
its iterate keeps `1 + r ≠ 0`); it raises an uncaught `ZeroDivisionError`
when some iterate reaches exactly `r = -1`; and in every other case it
returns the converged root: the run equals the amended outcome function with
the labels erased to raise/`None`/root (lines 49-74 of
`src/abas/financeiro.py`). -/
theorem irr_run_eq_spec_outcome (flows : List ℚ) (guess : ℚ) :
    irrRun flows guess = (irrOutcome flows guess).run := by
  rw [irrRun, irrOutcome]
  by_cases h1 : flows.length < 2
  · rw [if_pos (Or.inl h1), if_pos h1]
    rfl
  · rw [if_neg h1]
    by_cases h2 : ∀ x ∈ flows, |x| < 1 / 1000000000000
    · rw [if_pos (Or.inr h2), if_pos h2]
      rfl
    · rw [if_neg fun hor => hor.elim h1 h2, if_neg h2]
      exact newtonLoopRun_eq_outcome flows 100 guess

end Projetos
